import Mathlib

/-!
Verification of the `mobfot` client library (src/mobfot/client.py).

The client builds request URLs for a fixed set of endpoints, issues HTTP GET
requests through a session, and returns parsed JSON responses.  The method
`get_match_details` additionally keeps a per-match file cache under a data
directory: it loads `<DATA_PATH><match_id>.json` when present, and persists a
freshly fetched match document there when the match's nested status reports
both `finished` and `started` as truthy.

Shallow embedding choices:
  * JSON documents are the inductive `Json`; Python truthiness of a decoded
    JSON value is `truthy`.  Subscripting `d[k]` is `getKey`, which raises
    `KeyError` for a missing key on a dict and `TypeError` when the value is
    not a dict, matching Python semantics for decoded JSON.
  * The filesystem visible to the client is an association list from file
    paths to entries; an entry is `Except.ok j` when the file holds text that
    decodes to the document `j`, and `Except.error ()` when opening or
    decoding the file would raise (unreadable file or malformed JSON), so
    `json.load` on it is modelled by `load_if_file_exist`.
  * The transport (a `requests` session wrapped in `CacheControl`) is an
    oracle `Net` mapping each URL to a `Response` with a status code and the
    outcome of `response.json()`.  Per the library contract,
    `raise_for_status` raises exactly when the status is `>= 400`, which
    `execute_query` propagates as `Err.httpError`.
  * A cache write (`open(filepath, "w")` + `file.write(json.dumps(...))`)
    either succeeds or raises; the flag `writeOk` selects which, and the
    `try/except` in the source swallows the failure.
  * `get_match_details` returns its result, the filesystem after the call,
    and the list of URLs it issued GET requests for (in order), so that
    "no network call" and frame properties are statable.
-/

/-- A JSON document, as produced by decoding a response body or a cache
file.  Numbers are modelled as integers; no claim depends on numeric
contents. -/
inductive Json where
  | null : Json
  | bool : Bool → Json
  | num : Int → Json
  | str : String → Json
  | arr : List Json → Json
  | obj : List (String × Json) → Json

/-- Python truthiness of a decoded JSON value: `None`, `False`, `0`, `""`,
`[]` and `{}` are falsy, everything else is truthy. -/
def truthy : Json → Bool
  | .null => false
  | .bool b => b
  | .num n => n != 0
  | .str s => s != ""
  | .arr l => !l.isEmpty
  | .obj l => !l.isEmpty

/-- Lookup in a decoded JSON object.  `json.load` builds a Python dict where
a later duplicate key overrides an earlier one, so the last binding wins. -/
def objFind : List (String × Json) → String → Option Json
  | [], _ => none
  | (k, v) :: rest, key =>
    match objFind rest key with
    | some w => some w
    | none => if k = key then some v else none

/-- Errors raised by the client code: `response.raise_for_status()` on HTTP
status `>= 400`; failure to decode JSON (from `response.json()`, or from
`open`/`json.load` on a cache file); `KeyError`/`TypeError` from
subscripting a decoded document. -/
inductive Err where
  | httpError : Nat → Err
  | decodeError : Err
  | keyError : String → Err
  | typeError : Err

/-- Python subscripting `d[key]` on a decoded JSON value: a missing key on a
dict raises `KeyError`, subscripting a non-dict with a string raises
`TypeError`. -/
def getKey (j : Json) (key : String) : Except Err Json :=
  match j with
  | .obj fields =>
    match objFind fields key with
    | some v => .ok v
    | none => .error (.keyError key)
  | _ => .error .typeError

/-- The body of `MobFot._match_is_finished`:
`match["header"]["status"]["finished"] and match["header"]["status"]["started"]`,
used as a condition.  Python `and` short-circuits: when `finished` is falsy
its value is returned and `started` is never subscripted; otherwise the
condition's truth is the truthiness of `started`. -/
def match_is_finished (m : Json) : Except Err Bool := do
  let header ← getKey m "header"
  let status ← getKey header "status"
  let fin ← getKey status "finished"
  if truthy fin then
    let st ← getKey status "started"
    pure (truthy st)
  else
    pure false

/-- One cache file's observable content: `Except.ok j` when its text decodes
to `j`, `Except.error ()` when opening or decoding it raises. -/
abbrev Entry := Except Unit Json

/-- The filesystem the client sees: file path to entry, first binding
wins (a write shadows the previous content). -/
abbrev FS := List (String × Entry)

/-- Reading the entry at a path, `none` when no file exists there. -/
def fsRead (fs : FS) (p : String) : Option Entry :=
  match fs with
  | [] => none
  | (q, e) :: rest => if q = p then some e else fsRead rest p

/-- A successful `open(filepath, "w")` + `file.write(json.dumps(j))`:
the path now holds text decoding to `j`; every other path is unchanged. -/
def fsWrite (fs : FS) (p : String) (j : Json) : FS :=
  (p, Except.ok j) :: fs

/-- `MobFot._load_if_file_exist`: returns `None` when no file exists at the
path, otherwise `json.load`s it — which raises when the file is unreadable
or holds malformed JSON. -/
def load_if_file_exist (fs : FS) (filepath : String) : Except Err (Option Json) :=
  match fsRead fs filepath with
  | none => .ok none
  | some (.ok j) => .ok (some j)
  | some (.error _) => .error .decodeError

/-- Truthiness of `_load_if_file_exist`'s result: `None` is falsy, a loaded
document is as truthy as its value. -/
def optTruthy : Option Json → Bool
  | none => false
  | some j => truthy j

/-- `MobFot.BASE_URL`. -/
def BASE_URL : String := "https://www.fotmob.com/api"

/-- `self.matches_url`. -/
def matches_url : String := BASE_URL ++ "/matches?"

/-- `self.leagues_url`. -/
def leagues_url : String := BASE_URL ++ "/leagues?"

/-- `self.teams_url`. -/
def teams_url : String := BASE_URL ++ "/teams?"

/-- `self.player_url`. -/
def player_url : String := BASE_URL ++ "/playerData?"

/-- `self.match_details_url`. -/
def match_details_url : String := BASE_URL ++ "/matchDetails?"

/-- `self.search_url`. -/
def search_url : String := BASE_URL ++ "/searchData?"

/-- `self.tv_listing_url`. -/
def tv_listing_url : String := BASE_URL ++ "/tvlisting?"

/-- `self.tv_listings_url`. -/
def tv_listings_url : String := BASE_URL ++ "/tvlistings?"

/-- `MobFot._parse_filepath`: `self.DATA_PATH + str(match_id) + ".json"`.
`DATA_PATH` is resolved from the environment at construction and passed in
here explicitly. -/
def parse_filepath (dataPath : String) (match_id : Int) : String :=
  dataPath ++ toString match_id ++ ".json"

/-- `MobFot._check_date`: `re.compile(r"(20\d{2})(\d{2})(\d{2})").match(date)`
is not `None` exactly when the string starts with `2`, `0`, then six decimal
digits (`re.match` anchors at the start only). -/
def check_date (date : String) : Bool :=
  match date.data with
  | c0 :: c1 :: a :: b :: c :: d :: e :: f :: _ =>
    c0 == '2' && c1 == '0' && a.isDigit && b.isDigit &&
      c.isDigit && d.isDigit && e.isDigit && f.isDigit
  | _ => false

/-- The transport's answer to one GET: the HTTP status code and the outcome
of `response.json()` on the body. -/
structure Response where
  status : Nat
  body : Except Err Json

/-- The transport oracle: what `self.session.get(url)` returns for each URL. -/
abbrev Net := String → Response

/-- `MobFot._execute_query`: GET the URL, `raise_for_status()` (raises
`requests.HTTPError` carrying the status exactly when it is `>= 400`, per
the library contract stated in the spec), then decode and return the JSON
body. -/
def execute_query (net : Net) (url : String) : Except Err Json :=
  let r := net url
  if 400 ≤ r.status then .error (.httpError r.status) else r.body

/-- `MobFot.get_matches_by_date`: validate the date; on success GET the
matches URL, otherwise return `{}`.  The second component lists the URLs
requested. -/
def get_matches_by_date (net : Net) (date : String) (time_zone : String) :
    Except Err Json × List String :=
  if check_date date then
    let url := matches_url ++ "date=" ++ date ++ "&timezone=" ++ time_zone
    (execute_query net url, [url])
  else
    (.ok (.obj []), [])

/-- `MobFot.get_league`. -/
def get_league (net : Net) (id : Int) (tab type time_zone : String) :
    Except Err Json :=
  execute_query net
    (leagues_url ++ "id=" ++ toString id ++ "&tab=" ++ tab ++ "&type=" ++ type ++
      "&timezone=" ++ time_zone)

/-- `MobFot.get_team`. -/
def get_team (net : Net) (id : Int) (tab type time_zone : String) :
    Except Err Json :=
  execute_query net
    (teams_url ++ "id=" ++ toString id ++ "&tab=" ++ tab ++ "&type=" ++ type ++
      "&timezone=" ++ time_zone)

/-- `MobFot.get_player`. -/
def get_player (net : Net) (id : Int) : Except Err Json :=
  execute_query net (player_url ++ "id=" ++ toString id)

/-- `MobFot.get_match_tv_listing`. -/
def get_match_tv_listing (net : Net) (match_id : Int) (country_code : String) :
    Except Err Json :=
  execute_query net
    (tv_listing_url ++ "matchId=" ++ toString match_id ++ "&countryCode=" ++
      country_code)

/-- `MobFot.get_tv_listings_country`. -/
def get_tv_listings_country (net : Net) (country_code : String) :
    Except Err Json :=
  execute_query net (tv_listings_url ++ "countryCode=" ++ country_code)

/-- `MobFot.search`.  The term is percent-plus encoded by
`urllib.parse.quote_plus`, an external library collaborator passed in here
as the function `quote`. -/
def search (net : Net) (quote : String → String) (term : String)
    (user_language : String) : Except Err Json :=
  let search_term := quote term
  execute_query net
    (search_url ++ "term=" ++ search_term ++ "&userLanguage=" ++ user_language)

/-- The observable outcome of one `get_match_details` call: the value
returned (or error raised), the filesystem after the call, and the URLs the
call issued GET requests for, in order. -/
structure MDResult where
  result : Except Err Json
  fs : FS
  requests : List String

/-- `MobFot.get_match_details`, translated line by line:
build the URL and the file path; `_load_if_file_exist` (its `json.load` may
raise before anything else happens); when `no_cache` is false and the loaded
value is truthy, return it with no network traffic; otherwise
`_execute_query`, and when `_match_is_finished` holds, try to write the
document to the file — a write failure (`writeOk = false`) is caught and
swallowed — and return the document. -/
def get_match_details (net : Net) (fs : FS) (dataPath : String) (writeOk : Bool)
    (match_id : Int) (no_cache : Bool) : MDResult :=
  let url := match_details_url ++ "matchId=" ++ toString match_id
  let filepath := parse_filepath dataPath match_id
  match load_if_file_exist fs filepath with
  | .error e => ⟨.error e, fs, []⟩
  | .ok match_from_cache =>
    if !no_cache && optTruthy match_from_cache then
      ⟨.ok (match_from_cache.getD .null), fs, []⟩
    else
      match execute_query net url with
      | .error e => ⟨.error e, fs, [url]⟩
      | .ok match_details =>
        match match_is_finished match_details with
        | .error e => ⟨.error e, fs, [url]⟩
        | .ok fin =>
          if fin then
            ⟨.ok match_details,
              if writeOk then fsWrite fs filepath match_details else fs,
              [url]⟩
          else
            ⟨.ok match_details, fs, [url]⟩

/-! ### Concrete fixtures used by witnesses and counterexamples -/

/-- A concrete data directory, standing for the resolved `DATA_PATH`. -/
def dataPath0 : String := "/data/mobfot/"

/-- A transport that always answers 200 with body `null`. -/
def netOK : Net := fun _ => ⟨200, .ok .null⟩

/-- A match document whose status has `finished = false` and no `started`
key at all. -/
def mdNoStarted : Json :=
  .obj [("header", .obj [("status", .obj [("finished", .bool false)])])]

/-- A transport that always answers 200 with `mdNoStarted`. -/
def netNoStarted : Net := fun _ => ⟨200, .ok mdNoStarted⟩

/-- A finished match document (`finished = true`, `started = true`). -/
def mdFinished : Json :=
  .obj [("header",
    .obj [("status", .obj [("finished", .bool true), ("started", .bool true)])])]

/-- A transport that always answers 200 with `mdFinished`. -/
def netFinished : Net := fun _ => ⟨200, .ok mdFinished⟩

/-- A filesystem whose cache file for match 42 holds the empty object `{}`
(well-formed JSON that is falsy in Python). -/
def fsEmptyCached : FS := [(parse_filepath dataPath0 42, Except.ok (.obj []))]

/-- A filesystem whose cache file for match 42 is unreadable or holds
malformed JSON. -/
def fsBad : FS := [(parse_filepath dataPath0 42, Except.error ())]

/-- A truthy cached document for match 7. -/
def doc7 : Json := .obj [("id", .num 7)]

/-- A filesystem whose cache file for match 7 holds `doc7`. -/
def fsCached7 : FS := [(parse_filepath dataPath0 7, Except.ok doc7)]

/-! ### Claims -/

/-- Claim C6: for every date string failing the `_check_date` pattern
`(20\d{2})(\d{2})(\d{2})`, `get_matches_by_date` returns the empty mapping
`{}` and issues no network request. -/
theorem C6_invalid_date_empty (net : Net) (date time_zone : String)
    (h : check_date date = false) :
    get_matches_by_date net date time_zone = (.ok (.obj []), []) := by
  simp [get_matches_by_date, h]

/-- Witness for C6 at the hyphenated date `2023-12-01`. -/
theorem C6_invalid_date_empty_witness :
    get_matches_by_date netOK "2023-12-01" "America/New_York"
      = (.ok (.obj []), []) :=
  C6_invalid_date_empty netOK "2023-12-01" "America/New_York" (by decide)

/-- Claim C2: every date string in hyphenated `YYYY-MM-DD` form (four
digits, a hyphen, two digits, a hyphen, two digits) fails `_check_date` —
the pattern wants a contiguous 8-digit string — so `get_matches_by_date`
returns the empty mapping and issues no network request. -/
theorem C2_hyphenated_date_rejected (net : Net) (time_zone : String)
    (y1 y2 y3 y4 m1 m2 d1 d2 : Char)
    (hy1 : y1.isDigit = true) (hy2 : y2.isDigit = true)
    (hy3 : y3.isDigit = true) (hy4 : y4.isDigit = true)
    (hm1 : m1.isDigit = true) (hm2 : m2.isDigit = true)
    (hd1 : d1.isDigit = true) (hd2 : d2.isDigit = true) :
    get_matches_by_date net
      (String.mk [y1, y2, y3, y4, '-', m1, m2, '-', d1, d2]) time_zone
      = (.ok (.obj []), []) := by
  have hdash : Char.isDigit '-' = false := by decide
  have hc : check_date (String.mk [y1, y2, y3, y4, '-', m1, m2, '-', d1, d2])
      = false := by
    simp [check_date, hdash]
  simp [get_matches_by_date, hc]

/-- Witness for C2 at `2023-12-01` (spelled as its character list). -/
theorem C2_hyphenated_date_rejected_witness :
    get_matches_by_date netOK
      (String.mk ['2', '0', '2', '3', '-', '1', '2', '-', '0', '1'])
      "America/New_York" = (.ok (.obj []), []) :=
  C2_hyphenated_date_rejected netOK "America/New_York" '2' '0' '2' '3' '1' '2'
    '0' '1' (by decide) (by decide) (by decide) (by decide) (by decide)
    (by decide) (by decide) (by decide)

/-- Claim C9: `get_match_details` calls `_load_if_file_exist` before it
looks at the bypass flag, so when the cache file for the id exists but is
unreadable or malformed, the call raises the read/decode error — for either
value of `no_cache`, in particular with bypass on — and never reaches the
network. -/
theorem C9_corrupt_cache_raises (net : Net) (fs : FS) (dataPath : String)
    (writeOk : Bool) (match_id : Int) (no_cache : Bool)
    (h : fsRead fs (parse_filepath dataPath match_id)
      = some (Except.error ())) :
    get_match_details net fs dataPath writeOk match_id no_cache
      = ⟨.error .decodeError, fs, []⟩ := by
  simp [get_match_details, load_if_file_exist, h]

/-- Witness for C9: a corrupt cache file for match 42 and `no_cache = true`. -/
theorem C9_corrupt_cache_raises_witness :
    get_match_details netOK fsBad dataPath0 true 42 true
      = ⟨.error .decodeError, fsBad, []⟩ :=
  C9_corrupt_cache_raises netOK fsBad dataPath0 true 42 true rfl

/-- Claim C1, counterexample: a cache file for match 42 exists and holds the
well-formed document `{}`, yet with `no_cache = false` the call issues the
HTTP GET (the request list is nonempty) and returns the network document,
not the file's content — Python truthiness of the loaded value, not mere
file existence, gates the cache hit. -/
theorem C1_counterexample :
    (get_match_details netNoStarted fsEmptyCached dataPath0 true 42 false).requests
      ≠ [] ∧
    (get_match_details netNoStarted fsEmptyCached dataPath0 true 42 false).result
      ≠ .ok (.obj []) := by
  have hreq :
      (get_match_details netNoStarted fsEmptyCached dataPath0 true 42 false).requests
        = [match_details_url ++ "matchId=" ++ toString (42 : Int)] := rfl
  have hres :
      (get_match_details netNoStarted fsEmptyCached dataPath0 true 42 false).result
        = .ok mdNoStarted := rfl
  rw [hreq, hres]
  constructor
  · simp
  · simp [mdNoStarted]

/-- Claim C1 as amended: when the cache file for the id exists, decodes, and
its document is truthy (a nonempty object, say), `get_match_details` with
`no_cache = false` returns that document, leaves the filesystem unchanged,
and issues no network request. -/
theorem C1_truthy_cache_hit (net : Net) (fs : FS) (dataPath : String)
    (writeOk : Bool) (match_id : Int) (j : Json)
    (hfile : fsRead fs (parse_filepath dataPath match_id)
      = some (Except.ok j))
    (htruthy : truthy j = true) :
    get_match_details net fs dataPath writeOk match_id false
      = ⟨.ok j, fs, []⟩ := by
  simp [get_match_details, load_if_file_exist, hfile, optTruthy, htruthy]

/-- Witness for the amended C1: match 7's cache file holds the truthy
document `doc7`. -/
theorem C1_truthy_cache_hit_witness :
    get_match_details netOK fsCached7 dataPath0 true 7 false
      = ⟨.ok doc7, fsCached7, []⟩ :=
  C1_truthy_cache_hit netOK fsCached7 dataPath0 true 7 doc7 rfl rfl

/-- Claim C5, counterexample: the cache file for match 42 exists but is
malformed, and with `no_cache = true` the call raises the decode error and
never queries the network — the unconditional cache read precedes the
bypass flag. -/
theorem C5_counterexample :
    (get_match_details netOK fsBad dataPath0 true 42 true).requests = [] ∧
    (get_match_details netOK fsBad dataPath0 true 42 true).result
      = .error .decodeError :=
  ⟨rfl, rfl⟩

/-- Claim C5 as amended: with `no_cache = true`, whenever the cache load
does not itself raise (the file is absent, or present and well-formed), the
network is queried — exactly one GET, to the match-details URL — whatever
the cache holds. -/
theorem C5_bypass_queries_network (net : Net) (fs : FS) (dataPath : String)
    (writeOk : Bool) (match_id : Int) (mfc : Option Json)
    (hload : load_if_file_exist fs (parse_filepath dataPath match_id)
      = .ok mfc) :
    (get_match_details net fs dataPath writeOk match_id true).requests
      = [match_details_url ++ "matchId=" ++ toString match_id] := by
  simp only [get_match_details, hload, Bool.not_true, Bool.false_and,
    Bool.false_eq_true, if_false]
  cases hq : execute_query net
      (match_details_url ++ "matchId=" ++ toString match_id) with
  | error e => simp [hq]
  | ok md =>
    cases hfin : match_is_finished md with
    | error e => simp [hq, hfin]
    | ok fin => cases fin <;> simp [hq, hfin]

/-- Witness for the amended C5: a truthy cache file for match 7 exists, yet
bypass still issues the GET. -/
theorem C5_bypass_queries_network_witness :
    (get_match_details netOK fsCached7 dataPath0 true 7 true).requests
      = [match_details_url ++ "matchId=" ++ toString (7 : Int)] :=
  C5_bypass_queries_network netOK fsCached7 dataPath0 true 7 (some doc7) rfl

/-- Reduction of monadic bind on a successful `Except` computation. -/
theorem bindOk {α β : Type} (a : α) (f : α → Except Err β) :
    (Except.ok a >>= f : Except Err β) = f a := rfl

/-- Reduction of monadic bind on a failed `Except` computation. -/
theorem bindError {α β : Type} (e : Err) (f : α → Except Err β) :
    (Except.error e >>= f : Except Err β) = Except.error e := rfl

/-- Claim C3: when a match fetched over the network (the cache did not
serve) reports `finished = true` and `started = true`, the call returns the
fetched document, the filesystem gains exactly one file — at
`<DATA_PATH><match_id>.json`, shadowing nothing else — and the write
round-trips: loading that file back yields the same document. -/
theorem C3_finished_match_cached (net : Net) (fs : FS) (dataPath : String)
    (match_id : Int) (no_cache : Bool) (mfc : Option Json) (md hd st : Json)
    (hload : load_if_file_exist fs (parse_filepath dataPath match_id)
      = .ok mfc)
    (hmiss : no_cache = true ∨ optTruthy mfc = false)
    (hnet : execute_query net
      (match_details_url ++ "matchId=" ++ toString match_id) = .ok md)
    (hh : getKey md "header" = .ok hd)
    (hs : getKey hd "status" = .ok st)
    (hfin : getKey st "finished" = .ok (.bool true))
    (hst : getKey st "started" = .ok (.bool true)) :
    get_match_details net fs dataPath true match_id no_cache
      = ⟨.ok md, fsWrite fs (parse_filepath dataPath match_id) md,
         [match_details_url ++ "matchId=" ++ toString match_id]⟩ ∧
    load_if_file_exist (fsWrite fs (parse_filepath dataPath match_id) md)
      (parse_filepath dataPath match_id) = .ok (some md) ∧
    ∀ p, p ≠ parse_filepath dataPath match_id →
      fsRead (fsWrite fs (parse_filepath dataPath match_id) md) p
        = fsRead fs p := by
  have hfin2 : match_is_finished md = .ok true := by
    simp [match_is_finished, hh, hs, hfin, hst, truthy, bindOk]
  refine ⟨?_, ?_, ?_⟩
  · rcases hmiss with h | h
    · subst h
      simp [get_match_details, hload, hnet, hfin2]
    · simp [get_match_details, hload, h, hnet, hfin2]
  · simp [load_if_file_exist, fsWrite, fsRead]
  · intro p hp
    simp [fsWrite, fsRead, Ne.symm hp]

/-- Witness for C3: the finished match 5 is fetched on an empty filesystem
and its document lands in `/data/mobfot/5.json`, from where it loads back. -/
theorem C3_finished_match_cached_witness :
    get_match_details netFinished [] dataPath0 true 5 false
      = ⟨.ok mdFinished, fsWrite [] (parse_filepath dataPath0 5) mdFinished,
         [match_details_url ++ "matchId=" ++ toString (5 : Int)]⟩ ∧
    load_if_file_exist (fsWrite [] (parse_filepath dataPath0 5) mdFinished)
      (parse_filepath dataPath0 5) = .ok (some mdFinished) :=
  ⟨(C3_finished_match_cached netFinished [] dataPath0 5 false none mdFinished
      (.obj [("status", .obj [("finished", .bool true), ("started", .bool true)])])
      (.obj [("finished", .bool true), ("started", .bool true)])
      rfl (Or.inr rfl) rfl rfl rfl rfl rfl).1,
   (C3_finished_match_cached netFinished [] dataPath0 5 false none mdFinished
      (.obj [("status", .obj [("finished", .bool true), ("started", .bool true)])])
      (.obj [("finished", .bool true), ("started", .bool true)])
      rfl (Or.inr rfl) rfl rfl rfl rfl rfl).2.1⟩

/-- Claim C4: when a match fetched over the network reports
`finished = false`, no cache file is written — whatever `started` holds,
present or absent, since Python `and` never evaluates it — and the
filesystem is returned unchanged alongside the fetched document. -/
theorem C4_unfinished_no_write (net : Net) (fs : FS) (dataPath : String)
    (writeOk : Bool) (match_id : Int) (no_cache : Bool) (mfc : Option Json)
    (md hd st : Json)
    (hload : load_if_file_exist fs (parse_filepath dataPath match_id)
      = .ok mfc)
    (hmiss : no_cache = true ∨ optTruthy mfc = false)
    (hnet : execute_query net
      (match_details_url ++ "matchId=" ++ toString match_id) = .ok md)
    (hh : getKey md "header" = .ok hd)
    (hs : getKey hd "status" = .ok st)
    (hfin : getKey st "finished" = .ok (.bool false)) :
    get_match_details net fs dataPath writeOk match_id no_cache
      = ⟨.ok md, fs, [match_details_url ++ "matchId=" ++ toString match_id]⟩ := by
  have hfin2 : match_is_finished md = .ok false := by
    simp [match_is_finished, hh, hs, hfin, truthy, bindOk, pure, Except.pure]
  rcases hmiss with h | h
  · subst h
    simp [get_match_details, hload, hnet, hfin2]
  · simp [get_match_details, hload, h, hnet, hfin2]

/-- Witness for C4: match 11's document has `finished = false` and no
`started` key at all; the call returns it and the filesystem stays empty. -/
theorem C4_unfinished_no_write_witness :
    get_match_details netNoStarted [] dataPath0 true 11 false
      = ⟨.ok mdNoStarted, [],
         [match_details_url ++ "matchId=" ++ toString (11 : Int)]⟩ :=
  C4_unfinished_no_write netNoStarted [] dataPath0 true 11 false none
    mdNoStarted (.obj [("status", .obj [("finished", .bool false)])])
    (.obj [("finished", .bool false)]) rfl (Or.inr rfl) rfl rfl rfl rfl

/-- Claim C8: when the cache write for a finished match raises
(`writeOk = false` models the `open`/`write` failure), the `try/except`
swallows it: the call still returns the freshly fetched document and the
filesystem is unchanged. -/
theorem C8_write_failure_swallowed (net : Net) (fs : FS) (dataPath : String)
    (match_id : Int) (no_cache : Bool) (mfc : Option Json) (md : Json)
    (hload : load_if_file_exist fs (parse_filepath dataPath match_id)
      = .ok mfc)
    (hmiss : no_cache = true ∨ optTruthy mfc = false)
    (hnet : execute_query net
      (match_details_url ++ "matchId=" ++ toString match_id) = .ok md)
    (hfin : match_is_finished md = .ok true) :
    get_match_details net fs dataPath false match_id no_cache
      = ⟨.ok md, fs, [match_details_url ++ "matchId=" ++ toString match_id]⟩ := by
  rcases hmiss with h | h
  · subst h
    simp [get_match_details, hload, hnet, hfin]
  · simp [get_match_details, hload, h, hnet, hfin]

/-- Witness for C8: the finished match 5, an empty filesystem, and a
failing write; the call still returns the document. -/
theorem C8_write_failure_swallowed_witness :
    get_match_details netFinished [] dataPath0 false 5 true
      = ⟨.ok mdFinished, [],
         [match_details_url ++ "matchId=" ++ toString (5 : Int)]⟩ :=
  C8_write_failure_swallowed netFinished [] dataPath0 5 true none mdFinished
    rfl (Or.inl rfl) rfl rfl

/-- A transport that answers 404 to every GET. -/
def netErr : Net := fun _ => ⟨404, .ok .null⟩

/-- Claim C7: when the transport answers any URL with HTTP status `>= 400`,
every endpoint method propagates the HTTP error carrying that status and
returns no document; in particular `get_match_details` (reaching the
network: its cache load succeeded and did not serve) leaves the filesystem
untouched — no cache write is attempted. -/
theorem C7_http_error_propagates (net : Net) (status : Nat)
    (hstatus : 400 ≤ status) (hnet : ∀ u, (net u).status = status)
    (date time_zone tab type country_code term user_language dataPath : String)
    (quote : String → String) (id match_id : Int) (fs : FS) (writeOk : Bool)
    (no_cache : Bool) (mfc : Option Json)
    (hdate : check_date date = true)
    (hload : load_if_file_exist fs (parse_filepath dataPath match_id)
      = .ok mfc)
    (hmiss : no_cache = true ∨ optTruthy mfc = false) :
    (get_matches_by_date net date time_zone).1 = .error (.httpError status) ∧
    get_league net id tab type time_zone = .error (.httpError status) ∧
    get_team net id tab type time_zone = .error (.httpError status) ∧
    get_player net id = .error (.httpError status) ∧
    get_match_tv_listing net match_id country_code
      = .error (.httpError status) ∧
    get_tv_listings_country net country_code = .error (.httpError status) ∧
    search net quote term user_language = .error (.httpError status) ∧
    get_match_details net fs dataPath writeOk match_id no_cache
      = ⟨.error (.httpError status), fs,
         [match_details_url ++ "matchId=" ++ toString match_id]⟩ := by
  have hq : ∀ u, execute_query net u = .error (.httpError status) := by
    intro u
    simp [execute_query, hnet u, hstatus]
  refine ⟨?_, hq _, hq _, hq _, hq _, hq _, hq _, ?_⟩
  · simp [get_matches_by_date, hdate, hq]
  · rcases hmiss with h | h
    · subst h
      simp [get_match_details, hload, hq]
    · simp [get_match_details, hload, h, hq]

/-- Witness for C7: a transport answering 404 everywhere, one concrete call
per endpoint method. -/
theorem C7_http_error_propagates_witness :
    (get_matches_by_date netErr "20231201" "America/New_York").1
      = .error (.httpError 404) ∧
    get_league netErr 47 "overview" "league" "America/New_York"
      = .error (.httpError 404) ∧
    get_team netErr 8650 "overview" "league" "America/New_York"
      = .error (.httpError 404) ∧
    get_player netErr 1071179 = .error (.httpError 404) ∧
    get_match_tv_listing netErr 3900532 "GB" = .error (.httpError 404) ∧
    get_tv_listings_country netErr "GB" = .error (.httpError 404) ∧
    search netErr (fun s => s) "haaland" "en-GB,en"
      = .error (.httpError 404) ∧
    get_match_details netErr [] dataPath0 true 3900532 false
      = ⟨.error (.httpError 404), [],
         [match_details_url ++ "matchId=" ++ toString (3900532 : Int)]⟩ :=
  C7_http_error_propagates netErr 404 (by decide) (fun _ => rfl) "20231201"
    "America/New_York" "overview" "league" "GB" "haaland" "en-GB,en"
    dataPath0 (fun s => s) 47 3900532 [] true false none (by decide) rfl
    (Or.inr rfl)

/-- A match document whose status omits `started` but has `finished = true`. -/
def mdFinNoStarted : Json :=
  .obj [("header", .obj [("status", .obj [("finished", .bool true)])])]

/-- A transport that always answers 200 with `mdFinNoStarted`. -/
def netFinNoStarted : Net := fun _ => ⟨200, .ok mdFinNoStarted⟩

/-- A transport that always answers 200 with the empty object, which lacks
the `header` key. -/
def netNoHeader : Net := fun _ => ⟨200, .ok (.obj [])⟩

/-- Claim C10, counterexample: the fetched document `mdNoStarted` lacks the
nested key `started` (looking it up raises `KeyError`), yet the call raises
nothing and returns the document — `finished` is falsy, so Python's
short-circuiting `and` never subscripts `started`. -/
theorem C10_counterexample :
    (do
      let hd ← getKey mdNoStarted "header"
      let st ← getKey hd "status"
      getKey st "started" : Except Err Json)
      = .error (.keyError "started") ∧
    (get_match_details netNoStarted [] dataPath0 true 21 false).result
      = .ok mdNoStarted :=
  ⟨rfl, rfl⟩

/-- Claim C10 as amended: for a document fetched over the network, a lookup
failure on `header`, `status` or `finished` propagates out of
`get_match_details` — the error is raised, the document is not returned,
and nothing is written — while a missing `started` key raises exactly when
`finished` is truthy. -/
theorem C10_missing_key_raises (net : Net) (fs : FS) (dataPath : String)
    (writeOk : Bool) (match_id : Int) (no_cache : Bool) (mfc : Option Json)
    (hload : load_if_file_exist fs (parse_filepath dataPath match_id)
      = .ok mfc)
    (hmiss : no_cache = true ∨ optTruthy mfc = false) :
    (∀ md e,
      execute_query net (match_details_url ++ "matchId=" ++ toString match_id)
        = .ok md →
      (do
        let hd ← getKey md "header"
        let st ← getKey hd "status"
        getKey st "finished" : Except Err Json) = .error e →
      get_match_details net fs dataPath writeOk match_id no_cache
        = ⟨.error e, fs,
           [match_details_url ++ "matchId=" ++ toString match_id]⟩) ∧
    (∀ md hd st fin e,
      execute_query net (match_details_url ++ "matchId=" ++ toString match_id)
        = .ok md →
      getKey md "header" = .ok hd →
      getKey hd "status" = .ok st →
      getKey st "finished" = .ok fin →
      truthy fin = true →
      getKey st "started" = .error e →
      get_match_details net fs dataPath writeOk match_id no_cache
        = ⟨.error e, fs,
           [match_details_url ++ "matchId=" ++ toString match_id]⟩) := by
  constructor
  · intro md e hnet hchain
    have hfin2 : match_is_finished md = .error e := by
      unfold match_is_finished
      cases hh : getKey md "header" with
      | error e1 =>
        simp only [hh, bindError] at hchain ⊢
        simpa using hchain
      | ok hd =>
        simp only [hh, bindOk] at hchain ⊢
        cases hs : getKey hd "status" with
        | error e2 =>
          simp only [hs, bindError] at hchain ⊢
          simpa using hchain
        | ok st =>
          simp only [hs, bindOk] at hchain ⊢
          cases hf : getKey st "finished" with
          | error e3 =>
            simp only [hf, bindError] at hchain ⊢
            simpa using hchain
          | ok fin =>
            simp only [hf] at hchain
            exact Except.noConfusion hchain
    rcases hmiss with h | h
    · subst h
      simp [get_match_details, hload, hnet, hfin2]
    · simp [get_match_details, hload, h, hnet, hfin2]
  · intro md hd st fin e hnet hh hs hf htr hst
    have hfin2 : match_is_finished md = .error e := by
      simp [match_is_finished, hh, hs, hf, htr, hst, bindOk, bindError]
    rcases hmiss with h | h
    · subst h
      simp [get_match_details, hload, hnet, hfin2]
    · simp [get_match_details, hload, h, hnet, hfin2]

/-- Witness for the amended C10: a response lacking `header` raises
`KeyError("header")`; a response with truthy `finished` but no `started`
raises `KeyError("started")`.  Neither writes a file. -/
theorem C10_missing_key_raises_witness :
    get_match_details netNoHeader [] dataPath0 true 13 false
      = ⟨.error (.keyError "header"), [],
         [match_details_url ++ "matchId=" ++ toString (13 : Int)]⟩ ∧
    get_match_details netFinNoStarted [] dataPath0 true 13 false
      = ⟨.error (.keyError "started"), [],
         [match_details_url ++ "matchId=" ++ toString (13 : Int)]⟩ :=
  ⟨(C10_missing_key_raises netNoHeader [] dataPath0 true 13 false none rfl
      (Or.inr rfl)).1 (.obj []) (.keyError "header") rfl rfl,
   (C10_missing_key_raises netFinNoStarted [] dataPath0 true 13 false none rfl
      (Or.inr rfl)).2 mdFinNoStarted
      (.obj [("status", .obj [("finished", .bool true)])])
      (.obj [("finished", .bool true)]) (.bool true) (.keyError "started")
      rfl rfl rfl rfl rfl rfl⟩
